import Mathlib

/-!
Shallow embedding of the sentiment-analysis HTTP service
(`src/app.py`, `src/models.py`, `src/sentiment_analyzer.py`).

Conventions of the embedding:
* Python strings are Lean `String`s; `str.strip()` is modelled by `pyStrip`
  (drop leading whitespace, then trailing whitespace).
* Classifier scores are rationals (`ℚ`); Python's `round(x, 4)` uses
  round-half-to-even, modelled by `roundHalfEven` / `round4`.
* The underlying transformers pipeline is opaque: a `Classifier` is any
  function from the input text to either an exception message or the list of
  `\x7blabel, score\x7d` dicts that `self.pipeline(text)[0]` yields.
* The FastAPI layer is a pure function from the process-wide state (the
  module-level `analyzer`, `Option Classifier`) and the request to a response.
  Pydantic body validation runs before the route handler; a
  `RequestValidationError` is turned into a 400 response by
  `validation_exception_handler`.
* `predictWithTrace` additionally returns the list of arguments passed to
  `analyzer.analyze` while handling the request, so that "the analyzer is
  called exactly once, on exactly this text" is statable.
-/

namespace SentimentApi

/-- Whitespace test used by `str.strip()`. -/
def wsChar (c : Char) : Bool := c.isWhitespace

/-- Characters of `l` with leading and trailing whitespace removed,
the character-list semantics of Python `str.strip()`. -/
def stripChars (l : List Char) : List Char :=
  (l.dropWhile wsChar).rdropWhile wsChar

/-- Model of Python `str.strip()`. -/
def pyStrip (s : String) : String := ⟨stripChars s.data⟩

/-- One `\x7b"label": ..., "score": ...\x7d` entry returned by the pipeline. -/
structure LabelScore where
  label : String
  score : ℚ
deriving DecidableEq

/-- The opaque underlying classifier: `fun text => self.pipeline(text)[0]`,
either raising (message carried in `.error`) or returning all label scores. -/
abbrev Classifier := String → Except String (List LabelScore)

/-- Python `max(results, key=lambda x: x['score'])`: first element attaining
the maximal score (ties keep the earlier element), `none` on the empty list
(where Python raises `ValueError`). -/
def pyMaxByScore : List LabelScore → Option LabelScore
  | [] => none
  | x :: xs => some (xs.foldl (fun b a => if b.score < a.score then a else b) x)

/-- Round-half-to-even of a rational to an integer, the semantics of Python's
built-in `round`. -/
def roundHalfEven (q : ℚ) : ℤ :=
  if q - ⌊q⌋ < 1/2 then ⌊q⌋
  else if 1/2 < q - ⌊q⌋ then ⌊q⌋ + 1
  else if ⌊q⌋ % 2 = 0 then ⌊q⌋ else ⌊q⌋ + 1

/-- Model of Python `round(q, 4)`. -/
def round4 (q : ℚ) : ℚ := (roundHalfEven (q * 10000) : ℚ) / 10000

/-- Result dict of `SentimentAnalyzer.analyze`. -/
structure AnalyzeResult where
  sentiment : String
  confidence : ℚ
deriving DecidableEq

/-- Failure of `SentimentAnalyzer.analyze`: the `RuntimeError` it raises,
wrapping the message of the original cause (used for logging only). -/
inductive AnalyzeError where
  | analysisFailed (cause : String)
deriving DecidableEq

/-- The hardcoded model identifier (`SentimentAnalyzer.model_name`). -/
def model_name : String := "distilbert-base-uncased-finetuned-sst-2-english"

/-- `SentimentAnalyzer.analyze` from `src/sentiment_analyzer.py`: run the
pipeline, pick the entry with the maximal score, round its score to 4
decimals; any exception is wrapped into a generic `RuntimeError`. -/
def analyze (clf : Classifier) (text : String) : Except AnalyzeError AnalyzeResult :=
  match clf text with
  | .error e => .error (.analysisFailed e)
  | .ok results =>
    match pyMaxByScore results with
    | none => .error (.analysisFailed "max() arg is an empty sequence")
    | some best => .ok ⟨best.label, round4 best.score⟩

/-- The JSON value found at the `text` key of the request body: absent,
present with a non-string value, or a string. -/
inductive TextField where
  | missing
  | nonString
  | str (s : String)
deriving DecidableEq

/-- The distinct ways pydantic validation of `TextRequest` can fail. -/
inductive ValidationError where
  | missingField
  | wrongType
  | tooLong
  | emptyText
deriving DecidableEq

/-- `max_length=5000` of the `text` field of `TextRequest`. -/
def maxTextLength : Nat := 5000

/-- `TextRequest.validate_text` from `src/models.py`: reject a text that is
empty or whitespace-only, otherwise return the stripped text. -/
def validate_text (v : String) : Except ValidationError String :=
  if v = "" ∨ pyStrip v = "" then .error .emptyText else .ok (pyStrip v)

/-- Pydantic validation of the whole `TextRequest` body: the field must be
present and a string, the `max_length=5000` constraint is checked on the raw
value, then the after-mode validator `validate_text` runs. -/
def parseTextRequest : TextField → Except ValidationError String
  | .missing => .error .missingField
  | .nonString => .error .wrongType
  | .str s =>
    if maxTextLength < s.length then .error .tooLong
    else validate_text s

/-- `SentimentResponse` from `src/models.py`. -/
structure SentimentResponse where
  sentiment : String
  confidence : ℚ
deriving DecidableEq

/-- Pydantic construction of `SentimentResponse`: `sentiment` must be the
literal `"POSITIVE"` or `"NEGATIVE"` and `confidence` must satisfy
`ge=0.0, le=1.0`; otherwise construction raises (modelled by `none`). -/
def mkSentimentResponse (sentiment : String) (confidence : ℚ) :
    Option SentimentResponse :=
  if (sentiment = "POSITIVE" ∨ sentiment = "NEGATIVE") ∧
      0 ≤ confidence ∧ confidence ≤ 1
  then some ⟨sentiment, confidence⟩
  else none

/-- The JSON bodies the service can answer with. -/
inductive ResponseBody where
  | sentimentBody (r : SentimentResponse)
  | detail (msg : String)
  | healthBody (status model message : String)
  | homeMessage (message docs : String)
  | modelInfo (name ty task : String) (languages labels : List String)
  | notFoundBody (error : String) (available : List String)
deriving DecidableEq

/-- An HTTP response: status code and JSON body. -/
structure HttpResponse where
  status : Nat
  body : ResponseBody
deriving DecidableEq

/-- Detail string of the 400 responses. -/
def emptyTextDetail : String := "Le texte ne peut pas être vide"

/-- Detail string of the 503 responses. -/
def unavailableDetail : String := "Service indisponible - Modèle non chargé"

/-- Detail string of the 500 response. -/
def internalErrorDetail : String := "Erreur interne du serveur"

/-- Handling of `POST /predict`, returning the response together with the
list of texts passed to `analyzer.analyze` while handling the request.
Pydantic validation of the body runs first; on failure
`validation_exception_handler` answers 400 with `emptyTextDetail`. The route
body `predict_sentiment` then checks `analyzer is None` (503), re-checks
emptiness of the text (400), calls `analyzer.analyze(request.text.strip())`,
and builds a `SentimentResponse`; a non-`HTTPException` escaping any of this
becomes a 500 with a generic detail. -/
def predictWithTrace (analyzer : Option Classifier) (body : TextField) :
    HttpResponse × List String :=
  match parseTextRequest body with
  | .error _ => (⟨400, .detail emptyTextDetail⟩, [])
  | .ok text =>
    match analyzer with
    | none => (⟨503, .detail unavailableDetail⟩, [])
    | some clf =>
      if text = "" ∨ pyStrip text = "" then
        (⟨400, .detail emptyTextDetail⟩, [])
      else
        match analyze clf (pyStrip text) with
        | .error _ => (⟨500, .detail internalErrorDetail⟩, [pyStrip text])
        | .ok r =>
          match mkSentimentResponse r.sentiment r.confidence with
          | some resp => (⟨200, .sentimentBody resp⟩, [pyStrip text])
          | none => (⟨500, .detail internalErrorDetail⟩, [pyStrip text])

/-- The response of `POST /predict` (`predict_sentiment` in `src/app.py`,
composed with body validation and the exception handlers). -/
def predict_sentiment (analyzer : Option Classifier) (body : TextField) :
    HttpResponse :=
  (predictWithTrace analyzer body).1

/-- `GET /health` (`health_check` in `src/app.py`). -/
def health_check (analyzer : Option Classifier) : HttpResponse :=
  match analyzer with
  | none => ⟨503, .detail unavailableDetail⟩
  | some _ =>
      ⟨200, .healthBody "healthy" model_name
        "Service d'analyse de sentiment opérationnel"⟩

/-- `GET /models` (`get_model_info` in `src/app.py`): static metadata. -/
def get_model_info : HttpResponse :=
  ⟨200, .modelInfo model_name "DistilBERT" "sentiment-analysis"
    ["en"] ["NEGATIVE", "POSITIVE"]⟩

/-- `GET /` (`serve_homepage` in `src/app.py`); the branch serving a static
`index.html` file is not modelled (filesystem), only the JSON answer. -/
def serve_homepage : HttpResponse :=
  ⟨200, .homeMessage "API d'analyse de sentiment opérationnelle" "/docs"⟩

/-- The 404 handler (`not_found_handler` in `src/app.py`). -/
def not_found_response : HttpResponse :=
  ⟨404, .notFoundBody "Endpoint non trouvé" ["/docs", "/predict", "/health"]⟩

/-- Module-level initialisation of `analyzer` in `src/app.py`:
`SentimentAnalyzer()` either constructs (the process keeps the classifier)
or raises (the exception is logged and `analyzer = None`). -/
def initAnalyzer (load : Except String Classifier) : Option Classifier :=
  match load with
  | .ok c => some c
  | .error _ => none

/-- One incoming HTTP request, dispatched by route. -/
inductive Request where
  | predictReq (body : TextField)
  | healthReq
  | modelsReq
  | rootReq
  | otherReq (path : String)
deriving DecidableEq

/-- Dispatch of one request against the process-wide state (the module-level
`analyzer`); the state after handling is returned explicitly. No endpoint of
`src/app.py` assigns to `analyzer`, so every branch returns it unchanged. -/
def handleRequest (analyzer : Option Classifier) (r : Request) :
    HttpResponse × Option Classifier :=
  match r with
  | .predictReq body => (predict_sentiment analyzer body, analyzer)
  | .healthReq => (health_check analyzer, analyzer)
  | .modelsReq => (get_model_info, analyzer)
  | .rootReq => (serve_homepage, analyzer)
  | .otherReq _ => (not_found_response, analyzer)

/-! Helper lemmas about `pyStrip`. -/

/-- The result of `stripChars` starts with a non-whitespace character, hence
a further leading `dropWhile` leaves it unchanged. -/
theorem stripChars_dropWhile (l : List Char) :
    (stripChars l).dropWhile wsChar = stripChars l := by
  rcases h : stripChars l with _ | ⟨a, as⟩
  · simp
  · have hpre : (a :: as) <+: l.dropWhile wsChar := by
      rw [← h]
      exact List.rdropWhile_prefix wsChar (l.dropWhile wsChar)
    obtain ⟨t, ht⟩ := hpre
    have hid := List.dropWhile_idempotent wsChar l
    rw [← ht] at hid
    simp only [List.cons_append, List.dropWhile_cons] at hid
    by_cases hwa : wsChar a
    · rw [if_pos hwa] at hid
      have hlen := congrArg List.length hid
      rw [List.length_cons] at hlen
      have hle := (List.dropWhile_sublist (l := as ++ t) wsChar).length_le
      omega
    · simp [List.dropWhile_cons, hwa]

/-- Stripping the character list twice equals stripping it once. -/
theorem stripChars_idem (l : List Char) :
    stripChars (stripChars l) = stripChars l := by
  show ((stripChars l).dropWhile wsChar).rdropWhile wsChar = stripChars l
  rw [stripChars_dropWhile l]
  exact List.rdropWhile_idempotent wsChar (l.dropWhile wsChar)

/-- Python `strip` is idempotent. -/
theorem pyStrip_idem (s : String) : pyStrip (pyStrip s) = pyStrip s := by
  show (⟨stripChars (pyStrip s).data⟩ : String) = pyStrip s
  show (⟨stripChars (stripChars s.data)⟩ : String) = pyStrip s
  rw [stripChars_idem]
  rfl

/-- Stripping the empty string gives the empty string. -/
theorem pyStrip_empty : pyStrip "" = "" := rfl

/-! Helper lemmas about `pyMaxByScore` (Python `max(results, key=...)`). -/

/-- The fold underlying `pyMaxByScore` returns one of its inputs. -/
theorem foldl_maxBy_mem (xs : List LabelScore) (x : LabelScore) :
    xs.foldl (fun b a => if b.score < a.score then a else b) x ∈ x :: xs := by
  induction xs generalizing x with
  | nil => simp
  | cons y ys ih =>
    have h := ih (if x.score < y.score then y else x)
    simp only [List.foldl_cons]
    rcases List.mem_cons.mp h with h1 | h1
    · rw [h1]
      by_cases hxy : x.score < y.score
      · rw [if_pos hxy]; simp
      · rw [if_neg hxy]; simp
    · simp [List.mem_cons.mpr (Or.inr (List.mem_cons.mpr (Or.inr h1)))]

/-- The fold underlying `pyMaxByScore` dominates every input score. -/
theorem foldl_maxBy_ge (xs : List LabelScore) :
    ∀ x p, p ∈ x :: xs →
      p.score ≤ (xs.foldl (fun b a => if b.score < a.score then a else b) x).score := by
  induction xs with
  | nil =>
    intro x p hp
    simp at hp
    rw [hp, List.foldl_nil]
  | cons y ys ih =>
    intro x p hp
    simp only [List.foldl_cons]
    have hxz : x.score ≤ (if x.score < y.score then y else x).score := by
      by_cases h : x.score < y.score
      · rw [if_pos h]; exact le_of_lt h
      · rw [if_neg h]
    have hyz : y.score ≤ (if x.score < y.score then y else x).score := by
      by_cases h : x.score < y.score
      · rw [if_pos h]
      · rw [if_neg h]; exact le_of_not_lt h
    rcases List.mem_cons.mp hp with h1 | h1
    · rw [h1]
      exact le_trans hxz (ih _ _ (List.mem_cons_self _ _))
    · rcases List.mem_cons.mp h1 with h2 | h2
      · rw [h2]
        exact le_trans hyz (ih _ _ (List.mem_cons_self _ _))
      · exact ih _ p (List.mem_cons_of_mem _ h2)

/-! Helper lemmas about rounding. -/

/-- Round-half-to-even of a nonnegative rational is nonnegative. -/
theorem roundHalfEven_nonneg (q : ℚ) (h : 0 ≤ q) : 0 ≤ roundHalfEven q := by
  have h0 : (0 : ℤ) ≤ ⌊q⌋ := Int.floor_nonneg.mpr h
  unfold roundHalfEven
  split
  · exact h0
  split
  · omega
  split
  · exact h0
  · omega

/-- Round-half-to-even never overshoots an integer upper bound. -/
theorem roundHalfEven_le (q : ℚ) (n : ℤ) (h : q ≤ (n : ℚ)) :
    roundHalfEven q ≤ n := by
  have hfl : ⌊q⌋ ≤ n := by
    have h2 := Int.floor_le_floor h
    rwa [Int.floor_intCast] at h2
  unfold roundHalfEven
  split
  · exact hfl
  · rename_i h1
    have hge : (1 : ℚ)/2 ≤ q - ⌊q⌋ := le_of_not_lt h1
    have hlt : (⌊q⌋ : ℚ) < q := by linarith
    have hn : ⌊q⌋ < n := by
      have h3 : (⌊q⌋ : ℚ) < (n : ℚ) := lt_of_lt_of_le hlt h
      exact_mod_cast h3
    split
    · omega
    split
    · omega
    · omega

/-- Rounding to four decimals maps `[0, 1]` into `[0, 1]`. -/
theorem round4_mem_unit (q : ℚ) (h0 : 0 ≤ q) (h1 : q ≤ 1) :
    0 ≤ round4 q ∧ round4 q ≤ 1 := by
  have ha : (0 : ℤ) ≤ roundHalfEven (q * 10000) := by
    apply roundHalfEven_nonneg
    positivity
  have hb : roundHalfEven (q * 10000) ≤ 10000 := by
    apply roundHalfEven_le
    push_cast
    nlinarith
  unfold round4
  constructor
  · apply div_nonneg _ (by norm_num)
    exact_mod_cast ha
  · rw [div_le_one (by norm_num)]
    exact_mod_cast hb

/-! Helper lemmas about request validation. -/

/-- Successful pydantic validation means: the field was a string, within the
length bound, non-empty, with non-whitespace content, and the validated value
is the stripped string. -/
theorem parseTextRequest_ok_shape (f : TextField) (t : String)
    (h : parseTextRequest f = .ok t) :
    ∃ s, f = .str s ∧ s.length ≤ maxTextLength ∧ s ≠ "" ∧ pyStrip s ≠ "" ∧
      t = pyStrip s := by
  cases f with
  | missing => exact absurd h (by simp [parseTextRequest])
  | nonString => exact absurd h (by simp [parseTextRequest])
  | str s =>
    refine ⟨s, rfl, ?_⟩
    have h' : (if maxTextLength < s.length then
        (.error .tooLong : Except ValidationError String)
        else validate_text s) = .ok t := h
    by_cases hlen : maxTextLength < s.length
    · rw [if_pos hlen] at h'
      cases h'
    · rw [if_neg hlen] at h'
      unfold validate_text at h'
      by_cases hemp : s = "" ∨ pyStrip s = ""
      · rw [if_pos hemp] at h'
        cases h'
      · rw [if_neg hemp] at h'
        cases h'
        push_neg at hemp
        exact ⟨le_of_not_lt hlen, hemp.1, hemp.2, rfl⟩

/-- A request with valid text parses to its stripped text. -/
theorem parseTextRequest_ok_of_valid (s : String)
    (hs : pyStrip s ≠ "") (hlen : s.length ≤ maxTextLength) :
    parseTextRequest (.str s) = .ok (pyStrip s) := by
  have hs0 : s ≠ "" := by
    intro h
    rw [h] at hs
    exact hs pyStrip_empty
  show (if maxTextLength < s.length then
      (.error .tooLong : Except ValidationError String)
      else validate_text s) = .ok (pyStrip s)
  rw [if_neg (not_lt.mpr hlen)]
  unfold validate_text
  rw [if_neg (not_or.mpr ⟨hs0, hs⟩)]

/-- A demonstration classifier used by the concrete witnesses below. -/
def clfDemo : Classifier :=
  fun _ => .ok [⟨"NEGATIVE", 0⟩, ⟨"POSITIVE", 1⟩]

/-- C1: for every string `s` non-empty after trimming and of length at most
5000, `POST /predict` with body `text = s` (model available, classifier call
succeeding with its normal well-formed output) returns HTTP 200 whose body
has `sentiment` equal to `POSITIVE` or `NEGATIVE` and `confidence` in the
closed interval `[0, 1]`. -/
theorem predict_ok_valid_text (s : String) (clf : Classifier)
    (out : List LabelScore)
    (hs : pyStrip s ≠ "") (hlen : s.length ≤ 5000)
    (hclf : clf (pyStrip s) = .ok out)
    (hne : out ≠ [])
    (hwf : ∀ p ∈ out, (p.label = "POSITIVE" ∨ p.label = "NEGATIVE") ∧
      0 ≤ p.score ∧ p.score ≤ 1) :
    ∃ r : SentimentResponse,
      predict_sentiment (some clf) (.str s) = ⟨200, .sentimentBody r⟩ ∧
      (r.sentiment = "POSITIVE" ∨ r.sentiment = "NEGATIVE") ∧
      0 ≤ r.confidence ∧ r.confidence ≤ 1 := by
  have hparse : parseTextRequest (.str s) = .ok (pyStrip s) :=
    parseTextRequest_ok_of_valid s hs hlen
  obtain ⟨x, xs, rfl⟩ : ∃ x xs, out = x :: xs := by
    cases out with
    | nil => exact absurd rfl hne
    | cons x xs => exact ⟨x, xs, rfl⟩
  have hbm := foldl_maxBy_mem xs x
  have hwfb := hwf _ hbm
  have hru := round4_mem_unit _ hwfb.2.1 hwfb.2.2
  refine ⟨⟨(xs.foldl (fun b a => if b.score < a.score then a else b) x).label,
      round4 (xs.foldl (fun b a => if b.score < a.score then a else b) x).score⟩,
    ?_, ?_, ?_, ?_⟩
  · simp only [predict_sentiment, predictWithTrace, hparse, pyStrip_idem]
    rw [if_neg (not_or.mpr ⟨hs, hs⟩)]
    simp only [analyze, hclf, pyMaxByScore, mkSentimentResponse]
    rw [if_pos ⟨hwfb.1, hru.1, hru.2⟩]
  · exact hwfb.1
  · exact hru.1
  · exact hru.2

/-- Witness for C1 at a concrete request and classifier. -/
theorem predict_ok_valid_text_witness :
    pyStrip "good" ≠ "" ∧ ("good" : String).length ≤ 5000 ∧
    ∃ r : SentimentResponse,
      predict_sentiment (some clfDemo) (.str "good") = ⟨200, .sentimentBody r⟩ ∧
      (r.sentiment = "POSITIVE" ∨ r.sentiment = "NEGATIVE") ∧
      0 ≤ r.confidence ∧ r.confidence ≤ 1 :=
  ⟨by decide, by decide,
    predict_ok_valid_text "good" clfDemo
      [⟨"NEGATIVE", 0⟩, ⟨"POSITIVE", 1⟩]
      (by decide) (by decide) rfl (by decide) (by decide)⟩

/-- C2 counterexample: with the model wrapper unavailable and the `text`
field missing from the body, the response is the 400 produced by the
validation exception handler, not a 503 — contract-layer validation runs
before the route body's model-availability check. -/
theorem predict_unavailable_missing_field_is_400 :
    predict_sentiment none TextField.missing = ⟨400, .detail emptyTextDetail⟩ ∧
    (predict_sentiment none TextField.missing).status ≠ 503 := by
  constructor
  · rfl
  · intro h
    simp [predict_sentiment, predictWithTrace, parseTextRequest] at h

/-- C2 (amended): while the model wrapper is unavailable, every request
whose body passes contract-layer validation receives 503 with the generic
detail message; requests failing body validation receive 400 instead. -/
theorem predict_unavailable_503 (body : TextField) (t : String)
    (h : parseTextRequest body = .ok t) :
    predict_sentiment none body = ⟨503, .detail unavailableDetail⟩ := by
  simp only [predict_sentiment, predictWithTrace, h]

/-- Witness for the amended C2 at a concrete valid body. -/
theorem predict_unavailable_503_witness :
    parseTextRequest (.str "hi") = .ok "hi" ∧
    predict_sentiment none (.str "hi") = ⟨503, .detail unavailableDetail⟩ :=
  ⟨rfl, predict_unavailable_503 (.str "hi") "hi" rfl⟩

/-- C3: on any non-empty text where the classifier returns a score list
covering every supported label, `analyze` returns the label of a maximal
entry of that list with its score rounded to 4 decimal places. -/
theorem analyze_picks_max_score (clf : Classifier) (text : String)
    (out : List LabelScore)
    (ht0 : text ≠ "")
    (hclf : clf text = .ok out)
    (hpos : ∃ p ∈ out, p.label = "POSITIVE")
    (hneg : ∃ p ∈ out, p.label = "NEGATIVE") :
    ∃ best ∈ out, (∀ p ∈ out, p.score ≤ best.score) ∧
      analyze clf text = .ok ⟨best.label, round4 best.score⟩ := by
  obtain ⟨p0, hp0, _⟩ := hpos
  obtain ⟨x, xs, rfl⟩ : ∃ x xs, out = x :: xs := by
    cases out with
    | nil => simp at hp0
    | cons x xs => exact ⟨x, xs, rfl⟩
  refine ⟨xs.foldl (fun b a => if b.score < a.score then a else b) x,
    ?_, ?_, ?_⟩
  · exact foldl_maxBy_mem xs x
  · exact fun p hp => foldl_maxBy_ge xs x p hp
  · simp only [analyze, hclf, pyMaxByScore]

/-- Witness for C3 at a concrete text and classifier. -/
theorem analyze_picks_max_score_witness :
    ("good" : String) ≠ "" ∧
    ∃ best ∈ [(⟨"NEGATIVE", 0⟩ : LabelScore), ⟨"POSITIVE", 1⟩],
      (∀ p ∈ [(⟨"NEGATIVE", 0⟩ : LabelScore), ⟨"POSITIVE", 1⟩],
        p.score ≤ best.score) ∧
      analyze clfDemo "good" = .ok ⟨best.label, round4 best.score⟩ :=
  ⟨by decide,
    analyze_picks_max_score clfDemo "good"
      [⟨"NEGATIVE", 0⟩, ⟨"POSITIVE", 1⟩]
      (by decide) rfl (by decide) (by decide)⟩

/-- C4: every body-validation failure on `POST /predict` — field absent,
wrong type, empty or whitespace-only after trimming, or over the maximum
length — yields 400 with the single uniform detail body, independent of the
model state. -/
theorem validation_failure_uniform_400 (a : Option Classifier)
    (body : TextField) (e : ValidationError)
    (h : parseTextRequest body = .error e) :
    predict_sentiment a body = ⟨400, .detail emptyTextDetail⟩ := by
  simp only [predict_sentiment, predictWithTrace, h]

/-- Witness for C4 at a concrete invalid body (wrong field type). -/
theorem validation_failure_uniform_400_witness :
    parseTextRequest .nonString = .error .wrongType ∧
    predict_sentiment (some clfDemo) .nonString =
      ⟨400, .detail emptyTextDetail⟩ :=
  ⟨rfl, validation_failure_uniform_400 (some clfDemo) .nonString .wrongType rfl⟩

/-- C5: the 5000-character limit is checked on the raw text before any
trimming, and an oversized request is rejected with a 400 response while the
analyzer is never invoked (empty call trace). -/
theorem oversized_rejected_before_analysis (a : Option Classifier)
    (s : String) (h : maxTextLength < s.length) :
    parseTextRequest (.str s) = .error .tooLong ∧
    predict_sentiment a (.str s) = ⟨400, .detail emptyTextDetail⟩ ∧
    (predictWithTrace a (.str s)).2 = [] := by
  have hp : parseTextRequest (.str s) = .error .tooLong := by
    show (if maxTextLength < s.length then
        (.error .tooLong : Except ValidationError String)
        else validate_text s) = _
    rw [if_pos h]
  exact ⟨hp, by simp only [predict_sentiment, predictWithTrace, hp],
    by simp only [predictWithTrace, hp]⟩

/-- A 5002-character string whose trimmed form is a single character:
5001 spaces followed by one letter. -/
def longPadded : String := ⟨List.replicate 5001 ' ' ++ ['a']⟩

/-- Witness for C5: `longPadded` exceeds the limit before trimming (its
trimmed form is just one character) and is rejected with an empty trace. -/
theorem oversized_rejected_before_analysis_witness :
    maxTextLength < longPadded.length ∧
    parseTextRequest (.str longPadded) = .error .tooLong ∧
    predict_sentiment (some clfDemo) (.str longPadded) =
      ⟨400, .detail emptyTextDetail⟩ ∧
    (predictWithTrace (some clfDemo) (.str longPadded)).2 = [] := by
  have hlen : maxTextLength < longPadded.length := by
    have h1 : longPadded.length = 5002 := by
      show (List.replicate 5001 ' ' ++ ['a']).length = 5002
      rw [List.length_append, List.length_replicate]
      rfl
    rw [h1]
    norm_num [maxTextLength]
  exact ⟨hlen, oversized_rejected_before_analysis (some clfDemo) longPadded hlen⟩

/-- C6: when the underlying classifier raises during a `/predict` analysis,
the wrapper turns the failure into its generic error kind wrapping the
original cause (used for logging only), and the HTTP response is a 500 with
the generic detail — the same constant body whatever the cause was. -/
theorem classifier_error_gives_500 (clf : Classifier) (body : TextField)
    (t cause : String)
    (hparse : parseTextRequest body = .ok t)
    (hclf : clf (pyStrip t) = .error cause) :
    analyze clf (pyStrip t) = .error (.analysisFailed cause) ∧
    predict_sentiment (some clf) body = ⟨500, .detail internalErrorDetail⟩ := by
  have ha : analyze clf (pyStrip t) = .error (.analysisFailed cause) := by
    simp only [analyze, hclf]
  obtain ⟨s, hf, hlen, hs0, hsne, ht⟩ := parseTextRequest_ok_shape body t hparse
  refine ⟨ha, ?_⟩
  have hguard : ¬(t = "" ∨ pyStrip t = "") := by
    subst ht
    rw [pyStrip_idem]
    exact not_or.mpr ⟨hsne, hsne⟩
  simp only [predict_sentiment, predictWithTrace, hparse]
  rw [if_neg hguard]
  simp only [ha]

/-- A classifier that always raises, for the C6 witness. -/
def clfFailDemo : Classifier := fun _ => .error "boom"

/-- Witness for C6 at a concrete request and failing classifier. -/
theorem classifier_error_gives_500_witness :
    parseTextRequest (.str "hi") = .ok "hi" ∧
    clfFailDemo (pyStrip "hi") = .error "boom" ∧
    analyze clfFailDemo (pyStrip "hi") = .error (.analysisFailed "boom") ∧
    predict_sentiment (some clfFailDemo) (.str "hi") =
      ⟨500, .detail internalErrorDetail⟩ :=
  ⟨rfl, rfl, classifier_error_gives_500 clfFailDemo (.str "hi") "hi" "boom" rfl rfl⟩

/-- C7: `GET /health` answers 200 with status `healthy` exactly when the
model wrapper initialised successfully at process start, answers 503 exactly
when it did not, and handling the request leaves the process-wide model
state unchanged. -/
theorem health_reflects_model_load (load : Except String Classifier) :
    ((∃ c, load = .ok c) →
      health_check (initAnalyzer load) =
        ⟨200, .healthBody "healthy" model_name
          "Service d'analyse de sentiment opérationnel"⟩) ∧
    ((∃ e, load = .error e) →
      health_check (initAnalyzer load) = ⟨503, .detail unavailableDetail⟩) ∧
    (handleRequest (initAnalyzer load) .healthReq).2 = initAnalyzer load := by
  refine ⟨?_, ?_, rfl⟩
  · rintro ⟨c, rfl⟩
    rfl
  · rintro ⟨e, rfl⟩
    rfl

/-- Witness for C7 at a concrete successful and a concrete failed load. -/
theorem health_reflects_model_load_witness :
    health_check (initAnalyzer (.ok clfDemo)) =
      ⟨200, .healthBody "healthy" model_name
        "Service d'analyse de sentiment opérationnel"⟩ ∧
    health_check (initAnalyzer (.error "no model")) =
      ⟨503, .detail unavailableDetail⟩ :=
  ⟨(health_reflects_model_load (.ok clfDemo)).1 ⟨clfDemo, rfl⟩,
    (health_reflects_model_load (.error "no model")).2.1 ⟨"no model", rfl⟩⟩

/-- C8: handling any single request leaves the process-wide model state
unchanged, a subsequent request is handled exactly as if the first had never
happened, and the classifier is invoked at most once per request (no
retries). -/
theorem request_handling_frame (a : Option Classifier) (r : Request) :
    (handleRequest a r).2 = a ∧
    (∀ r2, handleRequest (handleRequest a r).2 r2 = handleRequest a r2) ∧
    (∀ body, (predictWithTrace a body).2.length ≤ 1) := by
  have hst : (handleRequest a r).2 = a := by cases r <;> rfl
  refine ⟨hst, fun r2 => by rw [hst], fun body => ?_⟩
  cases hp : parseTextRequest body with
  | error e => simp [predictWithTrace, hp]
  | ok t =>
    cases a with
    | none => simp [predictWithTrace, hp]
    | some clf =>
      by_cases hg : t = "" ∨ pyStrip t = ""
      · simp [predictWithTrace, hp, hg]
      · cases han : analyze clf (pyStrip t) with
        | error e => simp [predictWithTrace, hp, hg, han]
        | ok res =>
          cases hm : mkSentimentResponse res.sentiment res.confidence with
          | none => simp [predictWithTrace, hp, hg, han, hm]
          | some resp => simp [predictWithTrace, hp, hg, han, hm]

/-- C9: for every accepted `/predict` request handled with the model
available, the one argument passed to the analyzer is exactly the raw input
text with leading and trailing whitespace stripped. -/
theorem analyzer_receives_stripped_text (clf : Classifier) (s t : String)
    (hparse : parseTextRequest (.str s) = .ok t) :
    (predictWithTrace (some clf) (.str s)).2 = [pyStrip s] := by
  obtain ⟨s2, hf, hlen, hs0, hsne, ht⟩ :=
    parseTextRequest_ok_shape (.str s) t hparse
  injection hf with hss
  subst hss
  subst ht
  have hguard : ¬(pyStrip s = "" ∨ pyStrip (pyStrip s) = "") := by
    rw [pyStrip_idem]
    exact not_or.mpr ⟨hsne, hsne⟩
  simp only [predictWithTrace, hparse]
  rw [if_neg hguard, pyStrip_idem]
  cases han : analyze clf (pyStrip s) with
  | error e => simp [han]
  | ok res =>
    cases hm : mkSentimentResponse res.sentiment res.confidence with
    | none => simp [hm]
    | some resp => simp [hm]

/-- Witness for C9 at a concrete request with surrounding whitespace. -/
theorem analyzer_receives_stripped_text_witness :
    parseTextRequest (.str "  hi ") = .ok "hi" ∧
    (predictWithTrace (some clfDemo) (.str "  hi ")).2 = [pyStrip "  hi "] :=
  ⟨rfl, analyzer_receives_stripped_text clfDemo "  hi " "hi" rfl⟩

/-- C10: the text of every `TextRequest` that passed the contract-layer
validator is non-empty and equal to its own stripped value, so the guard of
the in-handler emptiness re-check is false (that 400 branch is unreachable)
and the handler's second `strip()` is the identity on it. -/
theorem validated_text_invariant (f : TextField) (t : String)
    (h : parseTextRequest f = .ok t) :
    t ≠ "" ∧ pyStrip t = t ∧ ¬(t = "" ∨ pyStrip t = "") := by
  obtain ⟨s, hf, hlen, hs0, hsne, ht⟩ := parseTextRequest_ok_shape f t h
  subst ht
  refine ⟨hsne, pyStrip_idem s, not_or.mpr ⟨hsne, ?_⟩⟩
  rw [pyStrip_idem]
  exact hsne

/-- Witness for C10 at a concrete validated request. -/
theorem validated_text_invariant_witness :
    parseTextRequest (.str " ok ") = .ok "ok" ∧
    ("ok" : String) ≠ "" ∧ pyStrip "ok" = "ok" ∧
    ¬(("ok" : String) = "" ∨ pyStrip "ok" = "") :=
  ⟨rfl, validated_text_invariant (.str " ok ") "ok" rfl⟩

end SentimentApi
